import Mathlib

/-!
Shallow embedding of `keyvalue/javascript/run.py` (Diagrid quickstart setup
script) and proofs about its status-polling loop (`check_appid_status`) and
its top-level orchestration (`main`).

Modelling conventions:
* `run_command cmd` (run.py:21-31) returns the stripped stdout on exit code 0
  and Python `None` on a non-zero exit (when `check=False`); we model one
  invocation's result as `Option String` (`none` = non-zero exit).
* The external status-query capability used by the polling loop is modelled
  as a function `query : Nat → Option String` giving, for each 1-indexed
  attempt, the value `run_command ("diagrid appid get ...")` returns on that
  attempt.
* `time.sleep(10)` is recorded as an event in an explicit event trace.
* Python's `AttributeError` raised by `None.split('\n')` (run.py:81 when the
  query failed) is modelled as the terminal outcome `PollOutcome.crashed`.
* Python's string methods `split`, `strip`, `lower` and the substring test
  `in` are re-implemented below as structurally recursive functions over the
  character list of a `String` (`pySplit`, `pyStrip`, `pyLower`,
  `pyContains`), so that every definition evaluates by kernel reduction.
  `pyLower` lowercases the ASCII range, which covers every status string the
  script compares (`ready`, `available`).
-/

/-- Python `str.strip()` whitespace class, restricted to the whitespace
characters that occur in command output: space, tab, newline, carriage
return. -/
def pyIsSpace (c : Char) : Bool :=
  c == ' ' || c == '\t' || c == '\n' || c == '\r'

/-- ASCII lowercasing of one character, as Python `str.lower()` acts on the
ASCII range. -/
def asciiLowerChar (c : Char) : Char :=
  if 65 <= c.toNat && c.toNat <= 90 then Char.ofNat (c.toNat + 32) else c

/-- Split off the text before and after the first occurrence of `sep`
(a non-empty character list): `splitFirst sep s = some (pre, post)` when
`s = pre ++ sep ++ post` at the leftmost occurrence, `none` when `sep` does
not occur in `s`. -/
def splitFirst (sep : List Char) : List Char → Option (List Char × List Char)
  | [] => none
  | c :: rest =>
    if sep.isPrefixOf (c :: rest) then some ([], List.drop sep.length (c :: rest))
    else
      match splitFirst sep rest with
      | some (pre, post) => some (c :: pre, post)
      | none => none

/-- Worker for `pySplit`: repeatedly split at the leftmost occurrence of
`sep`.  The fuel argument only bounds the recursion; `pySplit` passes more
fuel than there can be separator occurrences. -/
def pySplitAux (sep : List Char) : Nat → List Char → List (List Char)
  | 0, s => [s]
  | fuel + 1, s =>
    match splitFirst sep s with
    | none => [s]
    | some (pre, post) => pre :: pySplitAux sep fuel post

/-- Python `s.split(sep)` for a non-empty separator: the list of fields
between consecutive non-overlapping occurrences of `sep`, scanned left to
right. -/
def pySplit (s sep : String) : List String :=
  (pySplitAux sep.data (s.data.length + 1) s.data).map fun l => String.mk l

/-- Python `s.strip()`: remove leading and trailing whitespace. -/
def pyStrip (s : String) : String :=
  String.mk (((s.data.dropWhile pyIsSpace).reverse.dropWhile pyIsSpace).reverse)

/-- Python `s.lower()` on ASCII text. -/
def pyLower (s : String) : String :=
  String.mk (s.data.map asciiLowerChar)

/-- Python `sub in s`: substring containment. -/
def pyContains (s sub : String) : Bool :=
  (splitFirst sub.data s.data).isSome

/-- The status marker searched for in each output line (run.py:84:
`'Status:' in line`). -/
def statusMarker : String := "Status:"

/-- The line-scanning loop of run.py:82-87: walk the lines in order, and on
the first line containing `Status:` return `line.split('Status:')[1].strip()`;
the `break` makes all later lines irrelevant. -/
def statusFromLines : List String → Option String
  | [] => none
  | line :: rest =>
    if pyContains line statusMarker then
      some (pyStrip ((pySplit line statusMarker).getD 1 ""))
    else statusFromLines rest

/-- run.py:81-87 applied to one query output: `status_output.split('\n')`
followed by the first-matching-line scan. -/
def extractStatus (output : String) : Option String :=
  statusFromLines (pySplit output "\n")

/-- The readiness test of run.py:89: `status and (status.lower() == "ready"
or status.lower() == "available")`.  Python's truthiness of a string is
non-emptiness. -/
def isReadyStatus (status : String) : Bool :=
  (status != "") && (pyLower status == "ready" || pyLower status == "available")

/-- `max_attempts = 8` (run.py:73). -/
def max_attempts : Nat := 8

/-- The fixed inter-attempt delay in seconds, `time.sleep(10)` (run.py:93). -/
def delaySeconds : Nat := 10

/-- Observable events of one polling run: an external status query for a
given 1-indexed attempt, or a sleep of the given number of seconds. -/
inductive PollEvent where
  | query (attempt : Nat)
  | sleep (seconds : Nat)
deriving DecidableEq

/-- Terminal outcome of `check_appid_status`:
* `ready`: the loop returned normally (run.py:91);
* `timeout`: the loop exhausted its attempts and called `sys.exit(1)` with
  the final `last_status` (run.py:96-97);
* `crashed attempt`: the query of that attempt returned `None` and
  `status_output.split('\n')` raised an uncaught `AttributeError`
  (run.py:81). -/
inductive PollOutcome where
  | ready
  | timeout (last_status : Option String)
  | crashed (attempt : Nat)
deriving DecidableEq

/-- The `while attempt <= max_attempts` loop of run.py:78-94, recursing on
the fuel `max_attempts - attempt + 1`.  State threaded through: the current
attempt number and `last_status`.  Returns the terminal outcome and the
event trace. -/
def pollLoop (query : Nat → Option String) :
    Nat → Nat → Option String → PollOutcome × List PollEvent
  | 0, _attempt, last_status => (PollOutcome.timeout last_status, [])
  | fuel + 1, attempt, last_status =>
    match query attempt with
    | none => (PollOutcome.crashed attempt, [PollEvent.query attempt])
    | some out =>
      match extractStatus out with
      | some s =>
        if isReadyStatus s then (PollOutcome.ready, [PollEvent.query attempt])
        else
          let r := pollLoop query fuel (attempt + 1) (some s)
          (r.1, PollEvent.query attempt :: PollEvent.sleep delaySeconds :: r.2)
      | none =>
        let r := pollLoop query fuel (attempt + 1) last_status
        (r.1, PollEvent.query attempt :: PollEvent.sleep delaySeconds :: r.2)

/-- `check_appid_status` (run.py:72-97): `attempt = 1`, `last_status = None`,
loop up to `max_attempts` times. -/
def check_appid_status (query : Nat → Option String) :
    PollOutcome × List PollEvent :=
  pollLoop query max_attempts 1 none

/-- How a Python f-string renders `last_status`: the string itself, or the
text `None` for Python's `None`. -/
def pyFormatOptStr : Option String → String
  | none => "None"
  | some s => s

/-- The failure text of run.py:96: `f"❌ {appid_name} is not ready. Once
current status {last_status} becomes ready, you can proceed."`. -/
def timeoutMessage (appid_name : String) (last_status : Option String) : String :=
  "❌ " ++ appid_name ++ " is not ready. Once current status " ++
    pyFormatOptStr last_status ++ " becomes ready, you can proceed."

/-- A query attempt that succeeds (exit code 0) but whose parsed status, if
any, is not in the ready vocabulary. -/
def attemptNotReady (query : Nat → Option String) (n : Nat) : Bool :=
  match query n with
  | none => false
  | some out =>
    match extractStatus out with
    | some s => !isReadyStatus s
    | none => true

/-- A query attempt that succeeds and whose parsed status is ready. -/
def attemptReady (query : Nat → Option String) (n : Nat) : Bool :=
  match query n with
  | none => false
  | some out =>
    match extractStatus out with
    | some s => isReadyStatus s
    | none => false

/-- A query attempt that succeeds but whose output contains no `Status:`
line at all. -/
def attemptUnparsed (query : Nat → Option String) (n : Nat) : Bool :=
  match query n with
  | none => false
  | some out => (extractStatus out).isNone

/-- The update run.py:85-86 applies to `last_status` on one attempt whose
query succeeds: overwritten when a status line parses, kept otherwise. -/
def stepLast (query : Nat → Option String) (attempt : Nat)
    (last_status : Option String) : Option String :=
  match query attempt with
  | none => last_status
  | some out =>
    match extractStatus out with
    | some s => some s
    | none => last_status

/-- The value of `last_status` after processing `fuel` further attempts
starting at `attempt`, in a run with neither an early return nor a crash. -/
def lastStatusFrom (query : Nat → Option String) :
    Nat → Option String → Nat → Option String
  | _attempt, last_status, 0 => last_status
  | attempt, last_status, fuel + 1 =>
    lastStatusFrom query (attempt + 1) (stepLast query attempt last_status) fuel

/-- The value of `last_status` after attempts `1..n` of a run that neither
returned early nor crashed. -/
def lastStatusAfter (query : Nat → Option String) (n : Nat) : Option String :=
  lastStatusFrom query 1 none n

/-- The event trace of `fuel` consecutive non-ready attempts starting at
`attempt`: each query is followed by the fixed sleep. -/
def fullTrace : Nat → Nat → List PollEvent
  | 0, _attempt => []
  | fuel + 1, attempt =>
    PollEvent.query attempt :: PollEvent.sleep delaySeconds ::
      fullTrace fuel (attempt + 1)

/-- Number of external status queries recorded in a trace. -/
def countQueries (trace : List PollEvent) : Nat :=
  trace.countP fun e =>
    match e with
    | PollEvent.query _ => true
    | PollEvent.sleep _ => false

/-- Modelled from the claim wording only, for comparison with
`extractStatus`: the status value read as all the text following the first
occurrence of the marker, with surrounding whitespace trimmed. -/
def claimedStatusValue (line : String) : String :=
  match splitFirst statusMarker.data line.data with
  | some (_, post) => pyStrip (String.mk post)
  | none => ""

/-- One top-level external operation performed by `main` (run.py:137-172):
the `diagrid` CLI calls, the status poll, the config-file deletion and the
scaffolding step, each with the arguments the source passes. -/
inductive Op where
  | createProject (project_name : String)
  | useProject (project_name : String)
  | createAppid (project_name appid_name : String)
  | pollStatus (project_name appid_name : String)
  | deleteFile (path : String)
  | scaffoldConfig (config_file : String)
deriving DecidableEq

/-- The project name an operation creates, uses as default, or creates an
App ID in; `none` for the other operations. -/
def creationTarget : Op → Option String
  | Op.createProject p => some p
  | Op.useProject p => some p
  | Op.createAppid p _ => some p
  | _ => none

/-- The project name an operation polls; `none` for the other operations. -/
def pollTarget : Op → Option String
  | Op.pollStatus p _ => some p
  | _ => none

/-- The path an operation deletes; `none` for the other operations. -/
def deleteTarget : Op → Option String
  | Op.deleteFile p => some p
  | _ => none

/-- The config-file path an operation deletes or scaffolds; `none` for the
other operations. -/
def configTarget : Op → Option String
  | Op.deleteFile p => some p
  | Op.scaffoldConfig c => some c
  | _ => none

/-- What `main` computes and does, as a function of its inputs:
the exported `CONFIG_FILE` environment value (run.py:140-141, set before the
argument parser runs) and the sequence of external operations performed when
every step succeeds (run.py:154-172). -/
structure MainRun where
  exportedConfigFile : String
  ops : List Op
deriving DecidableEq

/-- `main` (run.py:137-172).  Inputs: the `QUICKSTART_PROJECT_NAME`
environment variable, the optional `--project-name` and `--config-file`
command-line arguments (`none` = flag not supplied, so the parser default
applies), and whether a file already exists at the config-file path. -/
def main_model (envProjectName : String)
    (argProjectName argConfigFile : Option String)
    (configFileIsFile : Bool) : MainRun :=
  let config_file_name := "dev-" ++ envProjectName ++ ".yaml"
  let project_name := argProjectName.getD envProjectName
  let appid_name := "order-app"
  let config_file := argConfigFile.getD config_file_name
  MainRun.mk config_file_name
    ([Op.createProject envProjectName,
      Op.useProject envProjectName,
      Op.createAppid envProjectName appid_name,
      Op.pollStatus project_name appid_name] ++
     (if configFileIsFile then [Op.deleteFile config_file] else []) ++
     [Op.scaffoldConfig config_file])

/-- The outside world `main` runs against: success (exit code 0) or failure
(non-zero exit) of each external command it runs, the per-attempt results of
the status query, and the state of the config-file path.  `query` is shared
with `check_appid_status`. -/
structure World where
  node_ok : Bool
  npm_ok : Bool
  project_create_ok : Bool
  project_use_ok : Bool
  appid_create_ok : Bool
  query : Nat → Option String
  config_exists : Bool
  delete_ok : Bool
  scaffold_ok : Bool
  venv_exists : Bool
  venv_remove_ok : Bool
  venv_create_ok : Bool
  pip_install_ok : Bool
  scaffold_py_ok : Bool

/-- `scaffold_and_update_config` (run.py:113-135) as its effect on the
process exit code: every command runs with `check=True`, so the first
non-zero exit raises `CalledProcessError`, which no caller catches; an
uncaught exception terminates CPython with exit status 1. -/
def scaffold_exit (w : World) : Nat :=
  if !w.scaffold_ok then 1
  else if w.venv_exists && !w.venv_remove_ok then 1
  else if !w.venv_create_ok then 1
  else if !w.pip_install_ok then 1
  else if !w.scaffold_py_ok then 1
  else 0

/-- The process exit code of a run of the script: `check_js_installed`
(run.py:33-41, `error` exits 1 when node or npm is missing), the three
`diagrid` creation commands (each exits 1 on `CalledProcessError`),
`check_appid_status` (timeout exits 1; a crashed poll is an uncaught
`AttributeError`, exit status 1), the config-file deletion (run.py:163-170,
`error` exits 1 on an `OSError`), then `scaffold_and_update_config`.
Falling off the end of `main` exits 0. -/
def run_main (w : World) : Nat :=
  if !w.node_ok || !w.npm_ok then 1
  else if !w.project_create_ok then 1
  else if !w.project_use_ok then 1
  else if !w.appid_create_ok then 1
  else
    match (check_appid_status w.query).1 with
    | PollOutcome.ready =>
      if w.config_exists && !w.delete_ok then 1
      else scaffold_exit w
    | PollOutcome.timeout _ => 1
    | PollOutcome.crashed _ => 1

theorem lastStatusFrom_succ (query : Nat → Option String) :
    ∀ (fuel attempt : Nat) (last : Option String),
    lastStatusFrom query attempt last (fuel + 1) =
      stepLast query (attempt + fuel) (lastStatusFrom query attempt last fuel) := by
  intro fuel
  induction fuel with
  | zero => intro attempt last; simp [lastStatusFrom]
  | succ f ih =>
    intro attempt last
    have h1 : lastStatusFrom query attempt last (f + 1 + 1) =
        lastStatusFrom query (attempt + 1) (stepLast query attempt last) (f + 1) := rfl
    rw [h1, ih]
    have h2 : attempt + 1 + f = attempt + (f + 1) := by omega
    rw [h2]
    rfl

theorem pollLoop_timeout (query : Nat → Option String) :
    ∀ (fuel attempt : Nat) (last : Option String),
    (∀ n, n < fuel → attemptNotReady query (attempt + n) = true) →
    pollLoop query fuel attempt last =
      (PollOutcome.timeout (lastStatusFrom query attempt last fuel),
       fullTrace fuel attempt) := by
  intro fuel
  induction fuel with
  | zero => intro attempt last _h; simp [pollLoop, lastStatusFrom, fullTrace]
  | succ f ih =>
    intro attempt last h
    have h0 : attemptNotReady query attempt = true := by
      have := h 0 (by omega)
      simpa using this
    have hrest : ∀ n, n < f → attemptNotReady query (attempt + 1 + n) = true := by
      intro n hn
      have := h (n + 1) (by omega)
      have harith : attempt + (n + 1) = attempt + 1 + n := by omega
      rwa [harith] at this
    rcases hq : query attempt with _ | out
    · rw [attemptNotReady, hq] at h0
      simp at h0
    · rcases hs : extractStatus out with _ | s
      · have hstep : stepLast query attempt last = last := by
          simp only [stepLast, hq, hs]
        calc pollLoop query (f + 1) attempt last
            = ((pollLoop query f (attempt + 1) last).1,
               PollEvent.query attempt :: PollEvent.sleep delaySeconds ::
                 (pollLoop query f (attempt + 1) last).2) := by
              simp only [pollLoop, hq, hs]
          _ = (PollOutcome.timeout (lastStatusFrom query attempt last (f + 1)),
               fullTrace (f + 1) attempt) := by
              rw [ih (attempt + 1) last hrest]
              have heq : lastStatusFrom query attempt last (f + 1) =
                  lastStatusFrom query (attempt + 1) (stepLast query attempt last) f := rfl
              rw [heq, hstep]
              rfl
      · have hnr : isReadyStatus s = false := by
          rw [attemptNotReady, hq] at h0
          simp only [hs] at h0
          simpa using h0
        have hstep : stepLast query attempt last = some s := by
          simp only [stepLast, hq, hs]
        calc pollLoop query (f + 1) attempt last
            = ((pollLoop query f (attempt + 1) (some s)).1,
               PollEvent.query attempt :: PollEvent.sleep delaySeconds ::
                 (pollLoop query f (attempt + 1) (some s)).2) := by
              simp only [pollLoop, hq, hs, hnr]
              simp
          _ = (PollOutcome.timeout (lastStatusFrom query attempt last (f + 1)),
               fullTrace (f + 1) attempt) := by
              rw [ih (attempt + 1) (some s) hrest]
              have heq : lastStatusFrom query attempt last (f + 1) =
                  lastStatusFrom query (attempt + 1) (stepLast query attempt last) f := rfl
              rw [heq, hstep]
              rfl

theorem pollLoop_ready (query : Nat → Option String) :
    ∀ (j fuel attempt : Nat) (last : Option String), j < fuel →
    (∀ n, n < j → attemptNotReady query (attempt + n) = true) →
    attemptReady query (attempt + j) = true →
    pollLoop query fuel attempt last =
      (PollOutcome.ready, fullTrace j attempt ++ [PollEvent.query (attempt + j)]) := by
  intro j
  induction j with
  | zero =>
    intro fuel attempt last hlt _hnot hready
    rcases fuel with _ | f
    · omega
    · rw [Nat.add_zero] at hready
      rcases hq : query attempt with _ | out
      · rw [attemptReady, hq] at hready
        simp at hready
      · rcases hs : extractStatus out with _ | s
        · rw [attemptReady, hq] at hready
          simp only [hs] at hready
          simp at hready
        · have hr : isReadyStatus s = true := by
            rw [attemptReady, hq] at hready
            simpa only [hs] using hready
          simp only [pollLoop, hq, hs, hr]
          simp [fullTrace]
  | succ j ih =>
    intro fuel attempt last hlt hnot hready
    rcases fuel with _ | f
    · omega
    · have h0 : attemptNotReady query attempt = true := by
        have := hnot 0 (by omega)
        simpa using this
      have hnot' : ∀ n, n < j → attemptNotReady query (attempt + 1 + n) = true := by
        intro n hn
        have := hnot (n + 1) (by omega)
        have harith : attempt + (n + 1) = attempt + 1 + n := by omega
        rwa [harith] at this
      have hready' : attemptReady query (attempt + 1 + j) = true := by
        have harith : attempt + (j + 1) = attempt + 1 + j := by omega
        rwa [harith] at hready
      have harith2 : attempt + 1 + j = attempt + (j + 1) := by omega
      rcases hq : query attempt with _ | out
      · rw [attemptNotReady, hq] at h0
        simp at h0
      · rcases hs : extractStatus out with _ | s
        · calc pollLoop query (f + 1) attempt last
              = ((pollLoop query f (attempt + 1) last).1,
                 PollEvent.query attempt :: PollEvent.sleep delaySeconds ::
                   (pollLoop query f (attempt + 1) last).2) := by
                simp only [pollLoop, hq, hs]
            _ = (PollOutcome.ready,
                 fullTrace (j + 1) attempt ++ [PollEvent.query (attempt + (j + 1))]) := by
                rw [ih f (attempt + 1) last (by omega) hnot' hready']
                rw [harith2]
                rfl
        · have hnr : isReadyStatus s = false := by
            rw [attemptNotReady, hq] at h0
            simp only [hs] at h0
            simpa using h0
          calc pollLoop query (f + 1) attempt last
              = ((pollLoop query f (attempt + 1) (some s)).1,
                 PollEvent.query attempt :: PollEvent.sleep delaySeconds ::
                   (pollLoop query f (attempt + 1) (some s)).2) := by
                simp only [pollLoop, hq, hs, hnr]
                simp
            _ = (PollOutcome.ready,
                 fullTrace (j + 1) attempt ++ [PollEvent.query (attempt + (j + 1))]) := by
                rw [ih f (attempt + 1) (some s) (by omega) hnot' hready']
                rw [harith2]
                rfl

theorem countQueries_fullTrace : ∀ (fuel attempt : Nat),
    countQueries (fullTrace fuel attempt) = fuel := by
  intro fuel
  induction fuel with
  | zero => intro attempt; simp [fullTrace, countQueries]
  | succ f ih =>
    intro attempt
    simp only [fullTrace, countQueries, List.countP_cons]
    have := ih (attempt + 1)
    rw [countQueries] at this
    simp [this]

theorem countQueries_append (t1 t2 : List PollEvent) :
    countQueries (t1 ++ t2) = countQueries t1 + countQueries t2 := by
  simp [countQueries, List.countP_append]

theorem lastStatusFrom_unparsed (query : Nat → Option String) :
    ∀ (fuel attempt : Nat),
    (∀ n, n < fuel → attemptUnparsed query (attempt + n) = true) →
    ∀ last, lastStatusFrom query attempt last fuel = last := by
  intro fuel
  induction fuel with
  | zero => intro attempt _h last; rfl
  | succ f ih =>
    intro attempt h last
    have h0 : attemptUnparsed query attempt = true := by
      have := h 0 (by omega)
      simpa using this
    have hstep : stepLast query attempt last = last := by
      rcases hq : query attempt with _ | out
      · simp only [stepLast, hq]
      · rw [attemptUnparsed, hq] at h0
        have hs : extractStatus out = none := by
          simpa [Option.isNone_iff_eq_none] using h0
        simp only [stepLast, hq, hs]
    have hrest : ∀ n, n < f → attemptUnparsed query (attempt + 1 + n) = true := by
      intro n hn
      have := h (n + 1) (by omega)
      have harith : attempt + (n + 1) = attempt + 1 + n := by omega
      rwa [harith] at this
    have : lastStatusFrom query attempt last (f + 1) =
        lastStatusFrom query (attempt + 1) (stepLast query attempt last) f := rfl
    rw [this, hstep, ih (attempt + 1) hrest last]

theorem attemptUnparsed_notReady (query : Nat → Option String) (n : Nat)
    (h : attemptUnparsed query n = true) : attemptNotReady query n = true := by
  rcases hq : query n with _ | out
  · rw [attemptUnparsed, hq] at h
    simp at h
  · rw [attemptUnparsed, hq] at h
    have hs : extractStatus out = none := by
      simpa [Option.isNone_iff_eq_none] using h
    rw [attemptNotReady, hq]
    simp only [hs]

/-- C1: the claim says that when the status query fails on every call,
`check_appid_status` does not abort on the failed query but runs the full 8
attempts and terminates via the timeout path.  Evaluating the embedded code
at that input: a failed query makes `run_command` return `None`
(run.py:24-29), and `status_output.split('\n')` (run.py:81) then raises an
uncaught `AttributeError`, so the run aborts after the very first query —
it neither retries nor reaches the timeout path. -/
theorem check_appid_status_crashes_on_query_failure :
    check_appid_status (fun _ => none) =
      (PollOutcome.crashed 1, [PollEvent.query 1]) := rfl

/-- C2, counterexample: in a run in which no status line is ever parsed
(every query succeeds but returns no `Status:` line), the timeout failure
carries Python `None` — rendered as the text `None` in the message of
run.py:96 — and the message does not contain the string `unknown`
anywhere. -/
theorem timeout_carries_none_not_unknown :
    (check_appid_status (fun _ => some "provisioning in progress")).1 =
      PollOutcome.timeout none ∧
    timeoutMessage "order-app" none =
      "❌ order-app is not ready. Once current status None becomes ready, you can proceed." ∧
    pyContains (timeoutMessage "order-app" none) "unknown" = false := by
  exact ⟨by decide, rfl, by decide⟩

/-- C2 (amended): when `check_appid_status` exhausts its attempt budget, the
failure it signals carries the resource identifier and the last observed
status; if no status line was ever successfully parsed, the attached status
is Python `None`, rendered as the text `None` in the failure message — not
the string `unknown`. -/
theorem check_appid_status_timeout_payload (query : Nat → Option String)
    (h : ∀ n, n < max_attempts → attemptUnparsed query (n + 1) = true) :
    (check_appid_status query).1 = PollOutcome.timeout none ∧
    pyFormatOptStr none = "None" ∧
    pyContains (timeoutMessage "order-app" none) "None" = true ∧
    pyContains (timeoutMessage "order-app" none) "unknown" = false := by
  have h1 : ∀ n, n < max_attempts → attemptUnparsed query (1 + n) = true := by
    intro n hn
    have := h n hn
    have harith : n + 1 = 1 + n := by omega
    rwa [harith] at this
  have hnot : ∀ n, n < max_attempts → attemptNotReady query (1 + n) = true :=
    fun n hn => attemptUnparsed_notReady query (1 + n) (h1 n hn)
  have hrun := pollLoop_timeout query max_attempts 1 none hnot
  have hlast := lastStatusFrom_unparsed query max_attempts 1 h1 none
  refine ⟨?_, rfl, by decide, by decide⟩
  rw [check_appid_status, hrun, hlast]

/-- Witness for C2 (amended): a concrete query whose output never contains a
status line. -/
theorem check_appid_status_timeout_payload_witness :
    (check_appid_status (fun _ => some "provisioning")).1 =
      PollOutcome.timeout none ∧
    pyFormatOptStr none = "None" ∧
    pyContains (timeoutMessage "order-app" none) "None" = true ∧
    pyContains (timeoutMessage "order-app" none) "unknown" = false :=
  check_appid_status_timeout_payload (fun _ => some "provisioning") (by decide)

/-- C3: if the queries of attempts `1..k-1` succeed with a non-ready status
and the query of attempt `k ≤ 8` parses a status whose ASCII lowercase form
is `ready` or `available` (any letter case), then `check_appid_status`
returns on attempt `k` itself: exactly `k` queries are performed and no
sleep follows the `k`-th query. -/
theorem check_appid_status_ready_immediate (query : Nat → Option String)
    (k : Nat) (out s : String)
    (hk1 : 1 ≤ k) (hk8 : k ≤ max_attempts)
    (hbefore : ∀ n, n < k - 1 → attemptNotReady query (n + 1) = true)
    (hq : query k = some out) (hs : extractStatus out = some s)
    (hlower : pyLower s = "ready" ∨ pyLower s = "available") :
    check_appid_status query =
      (PollOutcome.ready, fullTrace (k - 1) 1 ++ [PollEvent.query k]) ∧
    countQueries (check_appid_status query).2 = k := by
  have hne : s ≠ "" := by
    intro he
    rcases hlower with hl | hl <;> rw [he] at hl <;> exact absurd hl (by decide)
  have hrs : isReadyStatus s = true := by
    rw [isReadyStatus]
    rcases hlower with hl | hl <;> simp [hl, hne]
  have hready : attemptReady query k = true := by
    rw [attemptReady, hq]
    simp only [hs, hrs]
  have hnot : ∀ n, n < k - 1 → attemptNotReady query (1 + n) = true := by
    intro n hn
    have := hbefore n hn
    have harith : n + 1 = 1 + n := by omega
    rwa [harith] at this
  have harithk : 1 + (k - 1) = k := by omega
  have hready' : attemptReady query (1 + (k - 1)) = true := by rwa [harithk]
  have hrun := pollLoop_ready query (k - 1) max_attempts 1 none
    (by have h8 : max_attempts = 8 := rfl; omega) hnot hready'
  rw [harithk] at hrun
  have hmain : check_appid_status query =
      (PollOutcome.ready, fullTrace (k - 1) 1 ++ [PollEvent.query k]) := by
    rw [check_appid_status, hrun]
  refine ⟨hmain, ?_⟩
  rw [hmain]
  simp only [countQueries_append, countQueries_fullTrace]
  have : countQueries [PollEvent.query k] = 1 := by
    simp [countQueries]
  rw [countQueries] at this ⊢
  rw [this]
  omega

/-- Witness for C3: the ready status (spelled `Ready`) first appears on the
3rd query; exactly 3 queries happen and no delay follows the 3rd. -/
theorem check_appid_status_ready_immediate_witness :
    check_appid_status
        (fun n => if n == 3 then some "Status: Ready" else some "Status: pending") =
      (PollOutcome.ready, fullTrace 2 1 ++ [PollEvent.query 3]) ∧
    countQueries (check_appid_status
        (fun n => if n == 3 then some "Status: Ready" else some "Status: pending")).2 = 3 :=
  check_appid_status_ready_immediate
    (fun n => if n == 3 then some "Status: Ready" else some "Status: pending")
    3 "Status: Ready" "Ready" (by decide) (by decide) (by decide) rfl (by decide)
    (Or.inl (by decide))

/-- C4: if every one of the 8 attempts' queries succeeds with a status
outside the ready vocabulary (including a failed/pending status, the empty
string, or output with no parseable status line), `check_appid_status` never
succeeds: it performs exactly `max_attempts = 8` queries, sleeping the fixed
`delaySeconds = 10` seconds between consecutive queries, and terminates via
the timeout path carrying the last observed status. -/
theorem check_appid_status_exhausts_budget (query : Nat → Option String)
    (h : ∀ n, n < max_attempts → attemptNotReady query (n + 1) = true) :
    check_appid_status query =
      (PollOutcome.timeout (lastStatusAfter query max_attempts),
       fullTrace max_attempts 1) ∧
    countQueries (check_appid_status query).2 = max_attempts ∧
    max_attempts = 8 ∧ delaySeconds = 10 := by
  have hnot : ∀ n, n < max_attempts → attemptNotReady query (1 + n) = true := by
    intro n hn
    have := h n hn
    have harith : n + 1 = 1 + n := by omega
    rwa [harith] at this
  have hrun := pollLoop_timeout query max_attempts 1 none hnot
  have hmain : check_appid_status query =
      (PollOutcome.timeout (lastStatusAfter query max_attempts),
       fullTrace max_attempts 1) := by
    rw [check_appid_status, hrun, lastStatusAfter]
  refine ⟨hmain, ?_, rfl, rfl⟩
  rw [hmain]
  exact countQueries_fullTrace max_attempts 1

/-- Witness for C4: a query that always returns a pending status. -/
theorem check_appid_status_exhausts_budget_witness :
    check_appid_status (fun _ => some "Status: pending") =
      (PollOutcome.timeout
        (lastStatusAfter (fun _ => some "Status: pending") max_attempts),
       fullTrace max_attempts 1) ∧
    countQueries (check_appid_status (fun _ => some "Status: pending")).2 =
      max_attempts ∧
    max_attempts = 8 ∧ delaySeconds = 10 :=
  check_appid_status_exhausts_budget (fun _ => some "Status: pending") (by decide)

/-- C7: in a full run of the polling loop (modelled over the attempts the
loop executes without an early return), the final `last_status` the timeout
carries equals the fold `lastStatusAfter`, which changes only on attempts
whose output parses a `Status:` line: an attempt with no such line leaves it
at its previous value, and an attempt parsing `s` sets it to `s`. -/
theorem check_appid_status_last_status_invariant (query : Nat → Option String)
    (h : ∀ n, n < max_attempts → attemptNotReady query (n + 1) = true) :
    (check_appid_status query).1 =
      PollOutcome.timeout (lastStatusAfter query max_attempts) ∧
    (∀ m out, query (m + 1) = some out → extractStatus out = none →
      lastStatusAfter query (m + 1) = lastStatusAfter query m) ∧
    (∀ m out s, query (m + 1) = some out → extractStatus out = some s →
      lastStatusAfter query (m + 1) = some s) := by
  refine ⟨?_, ?_, ?_⟩
  · exact ((check_appid_status_exhausts_budget query h).1 ▸ rfl)
  · intro m out hq hs
    rw [lastStatusAfter, lastStatusAfter, lastStatusFrom_succ]
    have harith : 1 + m = m + 1 := by omega
    rw [harith, stepLast, hq]
    simp only [hs]
  · intro m out s hq hs
    rw [lastStatusAfter, lastStatusFrom_succ]
    have harith : 1 + m = m + 1 := by omega
    rw [harith, stepLast, hq]
    simp only [hs]

/-- Witness for C7: attempt 2 returns output with no status line, so
`last_status` after attempt 2 equals its value after attempt 1. -/
theorem check_appid_status_last_status_invariant_witness :
    (check_appid_status
        (fun n => if n == 2 then some "retrying" else some "Status: pending")).1 =
      PollOutcome.timeout
        (lastStatusAfter
          (fun n => if n == 2 then some "retrying" else some "Status: pending")
          max_attempts) ∧
    lastStatusAfter
        (fun n => if n == 2 then some "retrying" else some "Status: pending") 2 =
      lastStatusAfter
        (fun n => if n == 2 then some "retrying" else some "Status: pending") 1 :=
  ⟨(check_appid_status_last_status_invariant
      (fun n => if n == 2 then some "retrying" else some "Status: pending")
      (by decide)).1,
   (check_appid_status_last_status_invariant
      (fun n => if n == 2 then some "retrying" else some "Status: pending")
      (by decide)).2.1 1 "retrying" rfl (by decide)⟩

theorem statusFromLines_skips : ∀ (pre rest : List String),
    (∀ p ∈ pre, pyContains p statusMarker = false) →
    statusFromLines (pre ++ rest) = statusFromLines rest := by
  intro pre
  induction pre with
  | nil => intro rest _h; rfl
  | cons p ps ih =>
    intro rest h
    have hp : pyContains p statusMarker = false := h p (by simp)
    have hps : ∀ x ∈ ps, pyContains x statusMarker = false := by
      intro x hx
      exact h x (by simp [hx])
    rw [List.cons_append, statusFromLines, hp]
    simp only [Bool.false_eq_true, if_false]
    exact ih rest hps

/-- C6, counterexample: the claim reads the status value as the text
following the `Status:` marker (trimmed).  On a line in which the marker
occurs twice, `line.split('Status:')[1]` (run.py:85) yields only the text
between the first and second occurrences, which differs from the text
following the marker. -/
theorem extractStatus_not_text_after_marker :
    extractStatus "Status: ready Status: failed" ≠
      some (claimedStatusValue "Status: ready Status: failed") ∧
    extractStatus "Status: ready Status: failed" = some "ready" ∧
    claimedStatusValue "Status: ready Status: failed" = "ready Status: failed" :=
  ⟨by decide, by decide, by decide⟩

/-- C6 (amended): on each attempt the output is scanned line by line and the
first line containing `Status:` decides the status (lines before it lack the
marker; lines after it are ignored); the status value is field 1 of
splitting that line on the marker — the text following the marker up to its
next occurrence, if any — with surrounding whitespace trimmed; and whenever
an attempt parses a status value `s`, `last_status` after that attempt is
`s`. -/
theorem statusFromLines_first_marker_line (pre post : List String) (line : String)
    (hpre : ∀ p ∈ pre, pyContains p statusMarker = false)
    (hline : pyContains line statusMarker = true) :
    statusFromLines (pre ++ line :: post) =
      some (pyStrip ((pySplit line statusMarker).getD 1 "")) ∧
    (∀ (query : Nat → Option String) (n : Nat) (out s : String),
      query (n + 1) = some out → extractStatus out = some s →
      lastStatusAfter query (n + 1) = some s) := by
  constructor
  · rw [statusFromLines_skips pre (line :: post) hpre, statusFromLines, hline]
    simp
  · intro query n out s hq hs
    rw [lastStatusAfter, lastStatusFrom_succ]
    have harith : 1 + n = n + 1 := by omega
    rw [harith, stepLast, hq]
    simp only [hs]

/-- Witness for C6 (amended): a concrete output in which the first
marker-bearing line is preceded by a marker-free line, followed by a later
marker line, and itself contains the marker twice. -/
theorem statusFromLines_first_marker_line_witness :
    statusFromLines (["header"] ++ "Status: ready Status: failed" :: ["Status: later"]) =
      some (pyStrip ((pySplit "Status: ready Status: failed" statusMarker).getD 1 "")) ∧
    lastStatusAfter (fun _ => some "App Status:  Available ") 1 = some "Available" :=
  ⟨(statusFromLines_first_marker_line ["header"] ["Status: later"]
      "Status: ready Status: failed" (by decide) (by decide)).1,
   (statusFromLines_first_marker_line ["header"] ["Status: later"]
      "Status: ready Status: failed" (by decide) (by decide)).2
     (fun _ => some "App Status:  Available ") 0 "App Status:  Available " "Available"
     rfl (by decide)⟩

/-- C5: `main` passes the `QUICKSTART_PROJECT_NAME` environment value to the
project-creation, default-project and App-ID-creation commands
(run.py:154-158), and passes the `--project-name` argument (defaulting to
that same environment value) only to the status poll (run.py:160): the
project names flowing into creation are all the environment value, and the
project name flowing into the poll is the argument value. -/
theorem main_model_creates_env_project_polls_arg_project :
    ∀ (envPrj : String) (argPrj argCfg : Option String) (cfgExists : Bool),
    (main_model envPrj argPrj argCfg cfgExists).ops.filterMap creationTarget =
      [envPrj, envPrj, envPrj] ∧
    (main_model envPrj argPrj argCfg cfgExists).ops.filterMap pollTarget =
      [argPrj.getD envPrj] := by
  intro envPrj argPrj argCfg cfgExists
  cases cfgExists <;>
    simp [main_model, creationTarget, pollTarget, List.filterMap_cons]

/-- C8: `main` deletes the config file before scaffolding exactly when a
file already exists at that path (run.py:163-172): the final operations are
the deletion (if and only if the file exists) immediately followed by the
scaffolding call, both on the `--config-file` path. -/
theorem main_model_deletes_config_iff_present :
    ∀ (envPrj : String) (argPrj argCfg : Option String) (cfgExists : Bool),
    List.IsSuffix
      (if cfgExists then
        [Op.deleteFile (argCfg.getD ("dev-" ++ envPrj ++ ".yaml")),
         Op.scaffoldConfig (argCfg.getD ("dev-" ++ envPrj ++ ".yaml"))]
       else [Op.scaffoldConfig (argCfg.getD ("dev-" ++ envPrj ++ ".yaml"))])
      (main_model envPrj argPrj argCfg cfgExists).ops ∧
    (main_model envPrj argPrj argCfg cfgExists).ops.filterMap deleteTarget =
      (if cfgExists then [argCfg.getD ("dev-" ++ envPrj ++ ".yaml")] else []) := by
  intro envPrj argPrj argCfg cfgExists
  cases cfgExists
  · constructor
    · exact ⟨[Op.createProject envPrj, Op.useProject envPrj,
              Op.createAppid envPrj "order-app",
              Op.pollStatus (argPrj.getD envPrj) "order-app"],
        by simp [main_model]⟩
    · simp [main_model, deleteTarget, List.filterMap_cons]
  · constructor
    · exact ⟨[Op.createProject envPrj, Op.useProject envPrj,
              Op.createAppid envPrj "order-app",
              Op.pollStatus (argPrj.getD envPrj) "order-app"],
        by simp [main_model]⟩
    · simp [main_model, deleteTarget, List.filterMap_cons]

/-- C10: the `CONFIG_FILE` environment value `main` exports is derived from
`QUICKSTART_PROJECT_NAME` before the argument parser runs (run.py:140-141)
and never depends on `--config-file`, while the file `main` deletes and
scaffolds is the `--config-file` value (default the same derived name); with
a `--config-file` argument supplied the two can name different files. -/
theorem main_model_exported_config_file :
    ∀ (envPrj : String) (argPrj argCfg : Option String) (cfgExists : Bool),
    (main_model envPrj argPrj argCfg cfgExists).exportedConfigFile =
      "dev-" ++ envPrj ++ ".yaml" ∧
    (main_model envPrj argPrj argCfg cfgExists).ops.filterMap configTarget =
      List.replicate (if cfgExists then 2 else 1)
        (argCfg.getD ("dev-" ++ envPrj ++ ".yaml")) := by
  intro envPrj argPrj argCfg cfgExists
  cases cfgExists <;>
    simp [main_model, configTarget, List.filterMap_cons, List.replicate]

/-- C9: the script's exit status is 0 exactly when every step succeeds —
node and npm present, the three `diagrid` commands succeed, the poll reaches
a ready status, the pre-existing config file (if any) is deleted
successfully, and every command of `scaffold_and_update_config` succeeds —
and is 1 on every failure path. -/
theorem run_main_exit_codes :
    ∀ w : World, (run_main w = 0 ∨ run_main w = 1) ∧
    (run_main w = 0 ↔
      (w.node_ok = true ∧ w.npm_ok = true ∧ w.project_create_ok = true ∧
       w.project_use_ok = true ∧ w.appid_create_ok = true ∧
       (check_appid_status w.query).1 = PollOutcome.ready ∧
       (w.config_exists = true → w.delete_ok = true) ∧
       w.scaffold_ok = true ∧
       (w.venv_exists = true → w.venv_remove_ok = true) ∧
       w.venv_create_ok = true ∧ w.pip_install_ok = true ∧
       w.scaffold_py_ok = true)) := by
  intro w
  obtain ⟨n1, n2, p1, p2, p3, q, ce, dk, sk, ve, vr, vc, pi, sp⟩ := w
  rcases hpoll : (check_appid_status q).1 with _ | ls | a
  · cases n1
    · simp_all [run_main, scaffold_exit]
    · cases n2
      · simp_all [run_main, scaffold_exit]
      · cases p1
        · simp_all [run_main, scaffold_exit]
        · cases p2
          · simp_all [run_main, scaffold_exit]
          · cases p3
            · simp_all [run_main, scaffold_exit]
            · cases ce <;> cases dk <;> cases sk <;> cases ve <;> cases vr <;>
                cases vc <;> cases pi <;> cases sp <;>
                simp_all [run_main, scaffold_exit]
  · cases n1 <;> cases n2 <;> cases p1 <;> cases p2 <;> cases p3 <;>
      simp_all [run_main, scaffold_exit]
  · cases n1 <;> cases n2 <;> cases p1 <;> cases p2 <;> cases p3 <;>
      simp_all [run_main, scaffold_exit]

/-- Witness for C9: a world in which every step succeeds exits 0. -/
theorem run_main_exit_codes_witness :
    run_main (World.mk true true true true true (fun _ => some "Status: ready")
      false true true false true true true true) = 0 :=
  (run_main_exit_codes (World.mk true true true true true
      (fun _ => some "Status: ready") false true true false true true true true)).2.mpr
    (by decide)
